import Mathlib

/-
Shallow embedding of the voice-assistant backend core
(provider router, session store, websocket dispatcher),
translated from the Python sources under backend/.
-/

namespace VoiceAssistant

/-- Python truthiness of an optional string: None and the empty string are falsy. -/
def pyTruthy : Option String → Bool
  | none => false
  | some s => !s.isEmpty

/-- Python `a or b` for optional strings (used for `provider or self.current_provider`). -/
def pyOr (a b : Option String) : Option String :=
  if pyTruthy a then a else b

/-! ### Provider adapters (llm/base_provider.py and subclasses) -/

/-- Outcome of one call to an adapter chat method: it either raises an
exception or returns a string (possibly empty). -/
inductive ChatOutcome where
  | raises
  | returns (text : String)
  deriving Repr, DecidableEq

/-- One entry of an adapter model catalog (id, display name, availability flag, cost tier). -/
structure ModelInfo where
  id : String
  name : String
  available : Bool
  cost_tier : String
  deriving Repr, DecidableEq

/-- Which adapter subclass a provider instance is (OpenAIProvider, ClaudeProvider, OllamaProvider). -/
inductive AdapterKind where
  | openai
  | claude
  | ollama
  deriving Repr, DecidableEq

/-- State of one provider adapter as seen by the router: constructor arguments
and the mutable attributes of BaseLLMProvider, plus the behaviour of its next
chat call (the network interaction is abstracted as an oracle). -/
structure Provider where
  kind : AdapterKind
  api_key : Option String
  is_healthy : Bool
  current_model : Option String
  models : List ModelInfo
  chatBehavior : ChatOutcome
  deriving Repr, DecidableEq

/-- BaseLLMProvider.is_available: bool(self.api_key) and self.is_healthy. -/
def is_available (p : Provider) : Bool :=
  pyTruthy p.api_key && p.is_healthy

/-- Whether one adapter chat call counts as a success for the router:
it must return without raising and the returned string must be truthy
(the router tests the response with a bare if). -/
def chatSucceeds : ChatOutcome → Bool
  | .raises => false
  | .returns s => !s.isEmpty

/-- OllamaProvider.__init__ calls super().__init__ with None as api_key:
the local provider holds no credential. -/
def ollamaNew (is_healthy : Bool) (current_model : Option String)
    (models : List ModelInfo) (chatBehavior : ChatOutcome) : Provider :=
  { kind := .ollama, api_key := none, is_healthy := is_healthy,
    current_model := current_model, models := models, chatBehavior := chatBehavior }

/-- ClaudeProvider._models, verbatim from claude_provider.py. -/
def claudeModels : List ModelInfo :=
  [⟨"claude-3-5-sonnet-20241022", "Claude 3.5 Sonnet", true, "high"⟩,
   ⟨"claude-3-haiku-20240307", "Claude 3 Haiku", true, "low"⟩,
   ⟨"claude-3-opus-20240229", "Claude 3 Opus", false, "high"⟩]

/-- OpenAIProvider._models, verbatim from openai_provider.py. -/
def openaiModels : List ModelInfo :=
  [⟨"gpt-4o", "GPT-4o", true, "high"⟩,
   ⟨"gpt-3.5-turbo", "GPT-3.5 Turbo", true, "low"⟩,
   ⟨"o3-mini", "o3-mini", false, "medium"⟩]

/-- The model-catalog scan shared by ClaudeProvider.set_model and
OpenAIProvider.set_model: the first catalog entry whose id matches and whose
availability flag is set makes the call succeed. -/
def modelListAccepts (models : List ModelInfo) (model : String) : Bool :=
  models.any (fun mi => mi.id == model && mi.available)

/-- Adapter-level set_model: Claude and OpenAI validate against their catalog
and mutate current_model only on acceptance; Ollama accepts any model name. -/
def adapterSetModel (p : Provider) (model : String) : Provider × Bool :=
  match p.kind with
  | .ollama => ({ p with current_model := some model }, true)
  | _ =>
    if modelListAccepts p.models model then
      ({ p with current_model := some model }, true)
    else
      (p, false)

/-! ### Provider router (llm/provider_manager.py) -/

/-- Mutable state of ProviderManager: the registry of initialized adapters
(a mapping of name to adapter), the current default provider and model,
and the priority-ordered fallback chain. -/
structure ManagerState where
  providers : List (String × Provider)
  current_provider : Option String
  current_model : Option String
  fallback_chain : List String
  deriving Repr, DecidableEq

/-- ProviderManager.__init__: empty registry, no current selection,
fallback chain openai, claude, ollama. -/
def newProviderManager : ManagerState :=
  { providers := [], current_provider := none, current_model := none,
    fallback_chain := ["openai", "claude", "ollama"] }

/-- Dictionary lookup self.providers.get(name). -/
def lookupProvider : List (String × Provider) → String → Option Provider
  | [], _ => none
  | (n, q) :: rest, name => if n = name then some q else lookupProvider rest name

/-- Dictionary update of a single registry entry (in-place mutation of the
adapter object bound to an existing key). -/
def updateProviderEntry : List (String × Provider) → String → Provider → List (String × Provider)
  | [], _, _ => []
  | (n, q) :: rest, name, p =>
    if n = name then (n, p) :: rest else (n, q) :: updateProviderEntry rest name p

/-- The normalized result dictionary returned by ProviderManager.chat. -/
structure ChatResult where
  text : String
  provider : String
  model : Option String
  fallback_used : Bool
  deriving Repr, DecidableEq

/-- Either the result dictionary or the raise of Exception with message
All LLM providers failed. -/
inductive ChatCallResult where
  | ok (r : ChatResult)
  | allProvidersFailed
  deriving Repr, DecidableEq

/-- Observable effect of one ProviderManager.chat call: its return value or
raise, the adapters whose chat method was actually invoked (in order), and
the manager state after the call. -/
structure ChatCall where
  result : ChatCallResult
  invoked : List String
  stateAfter : ManagerState
  deriving Repr, DecidableEq

/-- First phase of ProviderManager.chat: try the specified or current provider.
Mirrors the guard if provider_to_use and provider_to_use in self.providers,
then _try_provider, whose availability check precedes the adapter chat call;
exceptions from the adapter are caught and fall through to the fallback walk,
as does a falsy response. Returns the early result (if any) together with the
names of adapters invoked. -/
def chatPhase1 (ps : List (String × Provider)) (providerToUse modelToUse : Option String) :
    Option ChatResult × List String :=
  match providerToUse with
  | none => (none, [])
  | some pname =>
    if pyTruthy (some pname) then
      match lookupProvider ps pname with
      | none => (none, [])
      | some p =>
        if is_available p then
          match p.chatBehavior with
          | .raises => (none, [pname])
          | .returns t =>
            if t.isEmpty then (none, [pname])
            else (some ⟨t, pname, modelToUse, false⟩, [pname])
        else (none, [])
    else (none, [])

/-- Second phase of ProviderManager.chat: walk the fallback chain in priority
order, skipping the provider just attempted, providers absent from the
registry, and providers failing is_available; each remaining candidate is
tried once with its own current model. -/
def chatFallbackLoop (ps : List (String × Provider)) (providerToUse : Option String) :
    List String → Option ChatResult × List String
  | [] => (none, [])
  | f :: rest =>
    if providerToUse = some f then chatFallbackLoop ps providerToUse rest
    else
      match lookupProvider ps f with
      | none => chatFallbackLoop ps providerToUse rest
      | some p =>
        if is_available p then
          match p.chatBehavior with
          | .raises =>
            let t := chatFallbackLoop ps providerToUse rest
            (t.1, f :: t.2)
          | .returns s =>
            if s.isEmpty then
              let t := chatFallbackLoop ps providerToUse rest
              (t.1, f :: t.2)
            else (some ⟨s, f, p.current_model, true⟩, [f])
        else chatFallbackLoop ps providerToUse rest

/-- ProviderManager.chat: resolve the requested provider and model against the
current defaults, try that provider first, then walk the fallback chain, and
raise once everything reachable has failed. The body never assigns to
self.current_provider or self.current_model, so the state comes back as it
went in. -/
def chat (m : ManagerState) (provider model : Option String) : ChatCall :=
  let providerToUse := pyOr provider m.current_provider
  let modelToUse := pyOr model m.current_model
  match chatPhase1 m.providers providerToUse modelToUse with
  | (some r, t1) => ⟨.ok r, t1, m⟩
  | (none, t1) =>
    match chatFallbackLoop m.providers providerToUse m.fallback_chain with
    | (some r, t2) => ⟨.ok r, t1 ++ t2, m⟩
    | (none, t2) => ⟨.allProvidersFailed, t1 ++ t2, m⟩

/-- ProviderManager.set_model: validate against the targeted or current
provider; mutate the adapter and, when the targeted provider is the current
one, the router current_model, only on acceptance. -/
def set_model (m : ManagerState) (model : String) (provider : Option String) :
    ManagerState × Bool :=
  let providerToUse := pyOr provider m.current_provider
  match providerToUse with
  | none => (m, false)
  | some pname =>
    match lookupProvider m.providers pname with
    | none => (m, false)
    | some p =>
      match adapterSetModel p model with
      | (p2, true) =>
        let m2 := { m with providers := updateProviderEntry m.providers pname p2 }
        if some pname = m.current_provider then
          ({ m2 with current_model := some model }, true)
        else (m2, true)
      | (_, false) => (m, false)

/-! ### Session store (core/session_manager.py) -/

/-- One conversation turn as appended by Session.add_conversation_turn. -/
structure Turn where
  timestamp : Nat
  user : String
  assistant : String
  provider : String
  model : Option String
  deriving Repr, DecidableEq

/-- Session state: identifier, creation and last-activity times, whether a
websocket handle is bound, bounded conversation history, preferred provider
and model. Timestamps are abstracted as naturals. -/
structure Session where
  session_id : String
  created_at : Nat
  last_activity : Nat
  websocketBound : Bool
  conversation_history : List Turn
  current_provider : Option String
  current_model : Option String
  deriving Repr, DecidableEq

/-- Session.__init__: both timestamps are the current time, no websocket,
empty history, no provider or model preference. -/
def newSession (session_id : String) (now : Nat) : Session :=
  { session_id := session_id, created_at := now, last_activity := now,
    websocketBound := false, conversation_history := [],
    current_provider := none, current_model := none }

/-- Session.update_activity: stamp the current time. -/
def update_activity (s : Session) (now : Nat) : Session :=
  { s with last_activity := now }

/-- Session.add_conversation_turn: append the turn, then, when the history
exceeds 10 entries, keep only the last 10 (the Python slice with -10). -/
def add_conversation_turn (s : Session) (now : Nat) (user assistant provider : String)
    (model : Option String) : Session :=
  let h := s.conversation_history ++ [⟨now, user, assistant, provider, model⟩]
  { s with conversation_history := if 10 < h.length then h.drop (h.length - 10) else h }

/-- Uncurried wrapper of add_conversation_turn used to fold a sequence of appends. -/
def addTurn (s : Session) (t : Turn) : Session :=
  add_conversation_turn s t.timestamp t.user t.assistant t.provider t.model

/-- SessionManager state: the mapping of session id to session. -/
structure SessionStore where
  sessions : List (String × Session)
  deriving Repr, DecidableEq

/-- Dictionary lookup self.sessions.get(session_id). -/
def lookupSession : List (String × Session) → String → Option Session
  | [], _ => none
  | (n, q) :: rest, sid => if n = sid then some q else lookupSession rest sid

/-- Dictionary update of a single session entry (in-place mutation of the
session object bound to an existing key). -/
def updateSessionEntry : List (String × Session) → String → Session → List (String × Session)
  | [], _, _ => []
  | (n, q) :: rest, sid, s =>
    if n = sid then (n, s) :: rest else (n, q) :: updateSessionEntry rest sid s

/-- SessionManager.get_session: lookup by id; on success, touch the
last-activity timestamp as a side effect and return the session. -/
def get_session (st : SessionStore) (session_id : String) (now : Nat) :
    Option Session × SessionStore :=
  match lookupSession st.sessions session_id with
  | none => (none, st)
  | some s =>
    let s2 := update_activity s now
    (some s2, ⟨updateSessionEntry st.sessions session_id s2⟩)

/-! ### Connection dispatcher (api/websocket_handler.py) -/

/-- Result dictionary of the transcription collaborator
(speech_processor.transcribe_audio): text, confidence on a 0 to 100 scale,
optional error. Confidence is a rational, standing for the Python float. -/
structure TranscriptionResult where
  text : String
  confidence : ℚ
  error : Option String
  deriving Repr, DecidableEq

/-- Result dictionary of the synthesis collaborator
(speech_processor.synthesize_speech): success flag and optional audio payload. -/
structure TtsResult where
  success : Bool
  audioPayload : Option String
  deriving Repr, DecidableEq

/-- Structured result of the monitoring collaborator status query; it carries
its own timestamp field, stamped by the monitor with its wall clock. -/
structure StatusPayload where
  status : String
  timestamp : Nat
  deriving Repr, DecidableEq

/-- Outcomes of the external collaborators consulted while handling one
message, supplied as oracles: ffmpeg conversion success, the transcription
result, whether synthesis raises and its result, whether the monitoring
status call raises and its payload, and whether the capability call raises. -/
structure CollabOutcomes where
  conversionOk : Bool
  transcription : TranscriptionResult
  ttsRaises : Bool
  tts : TtsResult
  statusRaises : Bool
  statusPayload : StatusPayload
  capabilityRaises : Bool
  deriving Repr, DecidableEq

/-- Server-emitted envelopes, each with the fields relevant to the claims.
The systemStatusResponse and selfAwarenessResponse constructors record
whether the error-shaped payload was substituted. -/
inductive Envelope where
  | connectionEstablished (session_id : String) (timestamp : Nat)
  | pong (timestamp : Nat)
  | providerChanged (provider model : Option String) (timestamp : Nat)
  | modelChanged (provider model : Option String) (timestamp : Nat)
  | transcription (text : String) (confidence : ℚ) (error : Option String) (timestamp : Nat)
  | response (text : String) (provider : String) (model : Option String)
      (fallback_used : Bool) (source : Option String) (timestamp : Nat)
  | audioResponse (text : String) (source : Option String) (timestamp : Nat)
  | errorMsg (message : String) (timestamp : Nat)
  | systemStatusResponse (errorShaped : Bool) (timestamp : Nat)
  | selfAwarenessResponse (errorShaped : Bool) (timestamp : Nat)
  | errorAnalysisResponse (timestamp : Nat)
  deriving Repr, DecidableEq

/-- The timestamp field carried by an envelope. -/
def envTimestamp : Envelope → Nat
  | .connectionEstablished _ ts => ts
  | .pong ts => ts
  | .providerChanged _ _ ts => ts
  | .modelChanged _ _ ts => ts
  | .transcription _ _ _ ts => ts
  | .response _ _ _ _ _ ts => ts
  | .audioResponse _ _ ts => ts
  | .errorMsg _ ts => ts
  | .systemStatusResponse _ ts => ts
  | .selfAwarenessResponse _ ts => ts
  | .errorAnalysisResponse ts => ts

/-- A success-path system_status_response relays the monitoring payload
verbatim, including the payload timestamp. -/
def isRelayedStatus : Envelope → Bool
  | .systemStatusResponse false _ => true
  | _ => false

/-- Python str.strip applied to the transcription text: drop leading and
trailing whitespace characters. -/
def pyStrip (s : String) : String :=
  ⟨((s.data.dropWhile Char.isWhitespace).reverse.dropWhile Char.isWhitespace).reverse⟩

/-- An inbound envelope after json parsing: the optional type tag and the
fields the handlers read. dataPresent is the truthiness of the audio payload
message.get with key data. -/
structure InMessage where
  mtype : Option String
  text : String
  dataPresent : Bool
  provider : Option String
  model : Option String
  deriving Repr, DecidableEq

/-- Observable effect of routing one message: the session afterwards, the
envelopes sent (in order), whether ProviderManager.chat was called, and
which handler was dispatched (none for an unknown type). -/
structure HandlerOut where
  session : Session
  envelopes : List Envelope
  chatCalled : Bool
  handler : Option String
  deriving Repr, DecidableEq

/-- WebSocketHandler._handle_ping. -/
def handle_ping (session : Session) : HandlerOut :=
  ⟨session, [.pong session.last_activity], false, some "ping"⟩

/-- WebSocketHandler._handle_change_provider: record the preference fields on
the session and echo confirmation; the router is not called. -/
def handle_change_provider (session : Session) (msg : InMessage) : HandlerOut :=
  let s2 := { session with current_provider := msg.provider, current_model := msg.model }
  ⟨s2, [.providerChanged msg.provider msg.model s2.last_activity], false, some "change_provider"⟩

/-- WebSocketHandler._handle_change_model: message.get for provider defaults
to the session current provider. -/
def handle_change_model (session : Session) (msg : InMessage) : HandlerOut :=
  let provider := match msg.provider with
    | none => session.current_provider
    | some p => some p
  let s2 := { session with current_model := msg.model, current_provider := provider }
  ⟨s2, [.modelChanged provider msg.model s2.last_activity], false, some "change_model"⟩

/-- WebSocketHandler._handle_text_input: call the router with the session
history and preferences, append the turn, emit the response envelope, then
attempt synthesis; synthesis failure is swallowed. A router failure is
caught and surfaced as an error envelope. -/
def handle_text_input (m : ManagerState) (session : Session) (msg : InMessage)
    (c : CollabOutcomes) (now : Nat) : HandlerOut :=
  match (chat m session.current_provider session.current_model).result with
  | .allProvidersFailed =>
    ⟨session,
     [.errorMsg "Error processing message: All LLM providers failed" session.last_activity],
     true, some "text_input"⟩
  | .ok r =>
    let s2 := add_conversation_turn session now msg.text r.text r.provider r.model
    let ttsEnvs :=
      if c.ttsRaises then []
      else if c.tts.success && pyTruthy c.tts.audioPayload then
        [Envelope.audioResponse r.text none s2.last_activity]
      else []
    ⟨s2,
     Envelope.response r.text r.provider r.model r.fallback_used none s2.last_activity :: ttsEnvs,
     true, some "text_input"⟩

/-- WebSocketHandler._handle_audio_data: missing payload or failed conversion
emit an error-carrying transcription envelope and stop; otherwise emit the
transcription envelope, and only when the stripped text is truthy, no error
is reported and the confidence exceeds 30, proceed as text input with the
response tagged as voice sourced. -/
def handle_audio_data (m : ManagerState) (session : Session) (msg : InMessage)
    (c : CollabOutcomes) (now : Nat) : HandlerOut :=
  if msg.dataPresent = false then
    ⟨session, [.transcription "" 0 (some "No audio data received") session.last_activity],
     false, some "audio_data"⟩
  else if c.conversionOk = false then
    ⟨session, [.transcription "" 0 (some "Audio conversion failed") session.last_activity],
     false, some "audio_data"⟩
  else
    let tr := c.transcription
    let transcribed := pyStrip tr.text
    let trEnv : Envelope := .transcription transcribed tr.confidence tr.error session.last_activity
    if transcribed.isEmpty = false ∧ pyTruthy tr.error = false ∧ 30 < tr.confidence then
      match (chat m session.current_provider session.current_model).result with
      | .allProvidersFailed =>
        ⟨session,
         [trEnv, .errorMsg "Error processing voice input: All LLM providers failed" session.last_activity],
         true, some "audio_data"⟩
      | .ok r =>
        let s2 := add_conversation_turn session now transcribed r.text r.provider r.model
        let ttsEnvs :=
          if c.ttsRaises then []
          else if c.tts.success && pyTruthy c.tts.audioPayload then
            [Envelope.audioResponse r.text (some "voice_input") s2.last_activity]
          else []
        ⟨s2,
         trEnv ::
           Envelope.response r.text r.provider r.model r.fallback_used (some "voice_input")
             s2.last_activity :: ttsEnvs,
         true, some "audio_data"⟩
    else
      ⟨session, [trEnv], false, some "audio_data"⟩

/-- WebSocketHandler._handle_system_status_query: relay the monitoring
payload verbatim on success (the timestamp field is the payload timestamp),
substitute an error-shaped payload stamped with the session last activity
when the call raises. -/
def handle_system_status_query (session : Session) (c : CollabOutcomes) : HandlerOut :=
  if c.statusRaises then
    ⟨session, [.systemStatusResponse true session.last_activity], false, some "system_status_query"⟩
  else
    ⟨session, [.systemStatusResponse false c.statusPayload.timestamp], false,
     some "system_status_query"⟩

/-- WebSocketHandler._handle_self_awareness_query: both paths stamp the
session last activity (the capability payload carries no timestamp key, so
the dictionary spread does not override it). -/
def handle_self_awareness_query (session : Session) (c : CollabOutcomes) : HandlerOut :=
  if c.capabilityRaises then
    ⟨session, [.selfAwarenessResponse true session.last_activity], false,
     some "self_awareness_query"⟩
  else
    ⟨session, [.selfAwarenessResponse false session.last_activity], false,
     some "self_awareness_query"⟩

/-- WebSocketHandler._handle_error_analysis_request: fixed payload. -/
def handle_error_analysis_request (session : Session) : HandlerOut :=
  ⟨session, [.errorAnalysisResponse session.last_activity], false,
   some "error_analysis_request"⟩

/-- The keys of WebSocketHandler.message_handlers. -/
def knownMessageTypes : List String :=
  ["ping", "change_provider", "change_model", "audio_data", "text_input",
   "system_status_query", "self_awareness_query", "error_analysis_request"]

/-- Python string formatting of the unknown type tag (None prints as None). -/
def typeTagText : Option String → String
  | none => "None"
  | some t => t

/-- WebSocketHandler._route_message: dispatch on the type tag; an unknown or
missing tag yields a single error envelope naming it and no handler runs.
Handler-level exceptions are caught inside the handlers modelled here, so
routing always returns normally. -/
def route_message (m : ManagerState) (session : Session) (msg : InMessage)
    (c : CollabOutcomes) (now : Nat) : HandlerOut :=
  match msg.mtype with
  | some t =>
    if t = "ping" then handle_ping session
    else if t = "change_provider" then handle_change_provider session msg
    else if t = "change_model" then handle_change_model session msg
    else if t = "audio_data" then handle_audio_data m session msg c now
    else if t = "text_input" then handle_text_input m session msg c now
    else if t = "system_status_query" then handle_system_status_query session c
    else if t = "self_awareness_query" then handle_self_awareness_query session c
    else if t = "error_analysis_request" then handle_error_analysis_request session
    else
      ⟨session, [.errorMsg ("Unknown message type: " ++ t) session.last_activity], false, none⟩
  | none =>
    ⟨session, [.errorMsg ("Unknown message type: None") session.last_activity], false, none⟩

/-- The receive loop of handle_connection: process each inbound message in
turn, threading the session; the loop survives every routed message. -/
def processMessages (m : ManagerState) :
    Session → List (InMessage × CollabOutcomes × Nat) → List Envelope
  | _, [] => []
  | session, (msg, c, now) :: rest =>
    let out := route_message m session msg c now
    out.envelopes ++ processMessages m out.session rest

/-- Outcome of the connection setup phase of handle_connection. -/
inductive ConnectOutcome where
  | rejected
  | established (session : Session) (welcome : Envelope)
  deriving Repr, DecidableEq

/-- Connection setup in WebSocketHandler.handle_connection: resolve the
session (which touches its activity), reject with close code 4004 when
absent, otherwise bind the websocket and emit the connection_established
envelope stamped with the session creation time. -/
def handle_connection_start (st : SessionStore) (session_id : String) (now : Nat) :
    ConnectOutcome × SessionStore :=
  match get_session st session_id now with
  | (none, st2) => (.rejected, st2)
  | (some s, st2) =>
    let s2 := { s with websocketBound := true }
    (.established s2 (.connectionEstablished session_id s2.created_at),
     ⟨updateSessionEntry st2.sessions session_id s2⟩)

/-! ### Derived characterizations used in theorem statements -/

/-- The adapters invoked by the first phase of chat: the requested or current
provider when its name is truthy, registered, and available; the adapter chat
method runs exactly then. -/
def requestedAttempt (ps : List (String × Provider)) (ptu : Option String) : List String :=
  match ptu with
  | none => []
  | some pname =>
    if pyTruthy (some pname) then
      match lookupProvider ps pname with
      | none => []
      | some p => if is_available p then [pname] else []
    else []

/-- Whether the fallback walk of chat gives a chain entry an attempt: it must
differ from the provider already tried, be registered, and be available. -/
def fallbackEligible (ps : List (String × Provider)) (ptu : Option String) (f : String) : Bool :=
  if ptu = some f then false
  else
    match lookupProvider ps f with
    | none => false
    | some p => is_available p

/-! ### Concrete states for witnesses and counterexamples -/

/-- Registered, available adapter whose chat call raises. -/
def wProviderA : Provider :=
  ⟨.openai, some "sk-a", true, some "gpt-4o", openaiModels, .raises⟩

/-- Registered, available adapter whose chat call returns an empty string. -/
def wProviderB : Provider :=
  ⟨.claude, some "sk-b", true, some "claude-3-haiku-20240307", claudeModels, .returns ""⟩

/-- Registered, available adapter whose chat call succeeds. -/
def wProviderC : Provider :=
  ⟨.claude, some "sk-c", true, some "claude-3-5-sonnet-20241022", claudeModels,
   .returns "hello there"⟩

/-- Registered but unavailable adapter (health flag false) that would succeed
if its chat method were ever invoked. -/
def wProviderDown : Provider :=
  ⟨.claude, some "sk-d", false, some "claude-3-haiku-20240307", claudeModels,
   .returns "would succeed"⟩

/-- Manager with a three-entry chain where the first two attempts fail and the
third succeeds. -/
def wManager : ManagerState :=
  ⟨[("openai", wProviderA), ("claude", wProviderB), ("lmx", wProviderC)],
   some "openai", some "gpt-4o", ["openai", "claude", "lmx"]⟩

/-- Manager whose chain holds a failing available provider, a registered but
unavailable provider, and an unregistered name. -/
def cxManager : ManagerState :=
  ⟨[("openai", wProviderA), ("claude", wProviderDown)],
   some "openai", some "gpt-4o", ["openai", "claude", "ollama"]⟩

/-- Manager used by dispatcher witnesses: a single available Claude adapter
that answers every chat. -/
def wChatManager : ManagerState :=
  ⟨[("claude", wProviderC)], some "claude", some "claude-3-5-sonnet-20241022",
   ["openai", "claude", "ollama"]⟩

/-- A session whose last activity (7) predates the message being processed. -/
def wSession : Session := ⟨"s1", 0, 7, true, [], none, none⟩

/-- A ping message. -/
def wPingMsg : InMessage := ⟨some "ping", "", false, none, none⟩

/-- A message with an unrecognized type tag. -/
def wBogusMsg : InMessage := ⟨some "bogus_kind", "", false, none, none⟩

/-- An audio message whose payload is present. -/
def wAudioMsg : InMessage := ⟨some "audio_data", "", true, none, none⟩

/-- Collaborator outcomes: everything succeeds, transcription has confidence
31 and nonempty text, synthesis produces no audio. -/
def wCollab31 : CollabOutcomes :=
  ⟨true, ⟨"hello", 31, none⟩, false, ⟨false, none⟩, false, ⟨"healthy", 3⟩, false⟩

/-- Collaborator outcomes: transcription confidence 25 with nonempty text. -/
def wCollab25 : CollabOutcomes :=
  ⟨true, ⟨"hello", 25, none⟩, false, ⟨false, none⟩, false, ⟨"healthy", 3⟩, false⟩

/-- A store holding one session created at time 0. -/
def wStore : SessionStore := ⟨[("s1", newSession "s1" 0)]⟩

/-- A sample conversation turn. -/
def wTurn (n : Nat) : Turn := ⟨n, "u", "a", "openai", none⟩

/-! ### Theorems -/

/-- C5: appending a conversation turn never grows the history beyond 10
turns, and a run of 11 appends from an empty history leaves exactly the last
10 turns, in their original relative order, the oldest being evicted. -/
theorem history_bounded_and_evicts_oldest :
    (∀ (s : Session) (now : Nat) (u a p : String) (mo : Option String),
      s.conversation_history.length ≤ 10 →
      (add_conversation_turn s now u a p mo).conversation_history.length ≤ 10) ∧
    (∀ t1 t2 t3 t4 t5 t6 t7 t8 t9 t10 t11 : Turn,
      (List.foldl addTurn (newSession "s" 0)
          [t1, t2, t3, t4, t5, t6, t7, t8, t9, t10, t11]).conversation_history
        = [t2, t3, t4, t5, t6, t7, t8, t9, t10, t11]) := by
  constructor
  · intro s now u a p mo h
    simp only [add_conversation_turn]
    split
    · simp only [List.length_drop]
      omega
    · rename_i hlen
      simp only [List.length_append, List.length_singleton] at hlen ⊢
      omega
  · intro t1 t2 t3 t4 t5 t6 t7 t8 t9 t10 t11
    simp [addTurn, add_conversation_turn, newSession]

/-- C5 witness: the bound applied to a concrete session and the eviction
equality applied to eleven concrete turns. -/
theorem history_bounded_and_evicts_oldest_witness :
    (add_conversation_turn (newSession "w" 0) 1 "u" "a" "openai" none).conversation_history.length
      ≤ 10 ∧
    (List.foldl addTurn (newSession "s" 0)
        [wTurn 1, wTurn 2, wTurn 3, wTurn 4, wTurn 5, wTurn 6, wTurn 7, wTurn 8, wTurn 9,
         wTurn 10, wTurn 11]).conversation_history
      = [wTurn 2, wTurn 3, wTurn 4, wTurn 5, wTurn 6, wTurn 7, wTurn 8, wTurn 9, wTurn 10,
         wTurn 11] :=
  ⟨history_bounded_and_evicts_oldest.1 (newSession "w" 0) 1 "u" "a" "openai" none (by decide),
   history_bounded_and_evicts_oldest.2 (wTurn 1) (wTurn 2) (wTurn 3) (wTurn 4) (wTurn 5)
     (wTurn 6) (wTurn 7) (wTurn 8) (wTurn 9) (wTurn 10) (wTurn 11)⟩

/-- C10: ProviderManager.chat leaves the router state, in particular the
current provider and current model selection, exactly as it found it,
whether it succeeds directly, succeeds through fallback, or raises. -/
theorem chat_preserves_selection :
    ∀ (m : ManagerState) (provider model : Option String),
      (chat m provider model).stateAfter.current_provider = m.current_provider ∧
      (chat m provider model).stateAfter.current_model = m.current_model ∧
      (chat m provider model).stateAfter = m := by
  intro m provider model
  have h : (chat m provider model).stateAfter = m := by
    simp only [chat]
    split
    · rfl
    · split <;> rfl
  exact ⟨by rw [h], by rw [h], h⟩

/-- C2 counterexample: the Ollama adapter is constructed with no credential,
and BaseLLMProvider.is_available demands a truthy api_key, so a healthy
Ollama adapter is still reported unavailable, against the claim that for the
no-credential local provider a true health flag alone suffices. -/
theorem is_available_ollama_counterexample :
    (ollamaNew true (some "llama3.1:8b") [] (.returns "ok")).api_key = none ∧
    (ollamaNew true (some "llama3.1:8b") [] (.returns "ok")).is_healthy = true ∧
    is_available (ollamaNew true (some "llama3.1:8b") [] (.returns "ok")) = false := by
  decide

/-- C2 amended: is_available holds exactly when the credential is present and
nonempty and the health flag is set; consequently the credential-free Ollama
adapter is never available, whatever its health flag. -/
theorem is_available_characterization :
    (∀ p : Provider,
      is_available p = true ↔ ((∃ k, p.api_key = some k ∧ k ≠ "") ∧ p.is_healthy = true)) ∧
    (∀ (h : Bool) (cm : Option String) (ms : List ModelInfo) (cb : ChatOutcome),
      is_available (ollamaNew h cm ms cb) = false) := by
  constructor
  · intro p
    cases hk : p.api_key with
    | none => simp [is_available, pyTruthy, hk]
    | some k =>
      simp only [is_available, pyTruthy, hk, Bool.and_eq_true, Bool.not_eq_true']
      constructor
      · rintro ⟨hke, hh⟩
        refine ⟨⟨k, rfl, fun he => ?_⟩, hh⟩
        rw [he] at hke
        exact absurd hke (by decide)
      · rintro ⟨⟨k2, hk2, hne⟩, hh⟩
        refine ⟨?_, hh⟩
        injection hk2 with hkk
        subst hkk
        cases hke : k.isEmpty
        · rfl
        · exact absurd ((String.isEmpty_iff k).mp hke) hne
  · intro h cm ms cb
    simp [is_available, ollamaNew, pyTruthy]

/-- C2 amended witness: the characterization evaluated on a concrete
credentialed adapter and on a concrete healthy Ollama adapter. -/
theorem is_available_characterization_witness :
    (is_available wProviderC = true ↔
      ((∃ k, wProviderC.api_key = some k ∧ k ≠ "") ∧ wProviderC.is_healthy = true)) ∧
    is_available (ollamaNew true (some "llama3.1:8b") [] (.returns "ok")) = false :=
  ⟨is_available_characterization.1 wProviderC,
   is_available_characterization.2 true (some "llama3.1:8b") [] (.returns "ok")⟩

/-! ### Helper lemmas on the dispatcher -/

theorem handle_text_input_session_activity (m : ManagerState) (session : Session)
    (msg : InMessage) (c : CollabOutcomes) (now : Nat) :
    (handle_text_input m session msg c now).session.last_activity = session.last_activity := by
  simp only [handle_text_input]
  split
  · rfl
  · rfl

theorem handle_audio_data_session_activity (m : ManagerState) (session : Session)
    (msg : InMessage) (c : CollabOutcomes) (now : Nat) :
    (handle_audio_data m session msg c now).session.last_activity = session.last_activity := by
  simp only [handle_audio_data]
  split
  · rfl
  · split
    · rfl
    · split
      · split <;> rfl
      · rfl

theorem route_message_session_activity (m : ManagerState) (session : Session)
    (msg : InMessage) (c : CollabOutcomes) (now : Nat) :
    (route_message m session msg c now).session.last_activity = session.last_activity := by
  simp only [route_message]
  cases msg.mtype with
  | none => rfl
  | some t =>
    repeat' split
    all_goals first
      | rfl
      | exact handle_audio_data_session_activity m session msg c now
      | exact handle_text_input_session_activity m session msg c now
      | (simp only [handle_system_status_query]; split <;> rfl)
      | (simp only [handle_self_awareness_query]; split <;> rfl)

/-- C4 counterexample: a ping at time 8 against a session whose last activity
is 7 dispatches its handler successfully, yet leaves the last-activity
timestamp at 7: a successful handler invocation does not touch activity. -/
theorem handler_activity_counterexample :
    (route_message newProviderManager wSession wPingMsg wCollab31 8).handler = some "ping" ∧
    (route_message newProviderManager wSession wPingMsg wCollab31 8).envelopes = [.pong 7] ∧
    (route_message newProviderManager wSession wPingMsg wCollab31 8).session.last_activity = 7 ∧
    (7 : Nat) ≠ 8 := by
  decide

/-- C4 amended: the last-activity timestamp is updated (to the current time,
hence non-decreasing under a monotone clock) by every successful Session
Store get lookup, but message routing and its handlers never modify it. -/
theorem activity_touched_by_get_not_by_handlers :
    (∀ (st : SessionStore) (sid : String) (now : Nat) (s0 s2 : Session) (st2 : SessionStore),
      lookupSession st.sessions sid = some s0 →
      get_session st sid now = (some s2, st2) →
      s2.last_activity = now ∧
        (s0.last_activity ≤ now → s0.last_activity ≤ s2.last_activity)) ∧
    (∀ (m : ManagerState) (session : Session) (msg : InMessage) (c : CollabOutcomes)
      (now : Nat),
      (route_message m session msg c now).session.last_activity = session.last_activity) := by
  constructor
  · intro st sid now s0 s2 st2 hl hg
    simp only [get_session, hl] at hg
    have hs2 : update_activity s0 now = s2 := by
      have hfst := congrArg Prod.fst hg
      simpa using hfst
    subst hs2
    refine ⟨rfl, fun hle => ?_⟩
    simpa [update_activity] using hle
  · exact route_message_session_activity

/-- C4 amended witness: a concrete get lookup at time 9 touches the stored
session, and a concrete routed ping leaves activity untouched. -/
theorem activity_touched_by_get_witness :
    ((get_session wStore "s1" 9).1.map Session.last_activity = some 9) ∧
    (route_message newProviderManager wSession wPingMsg wCollab31 8).session.last_activity = 7 := by
  constructor
  · have h := activity_touched_by_get_not_by_handlers.1 wStore "s1" 9 (newSession "s1" 0)
      (update_activity (newSession "s1" 0) 9) ⟨[("s1", update_activity (newSession "s1" 0) 9)]⟩
      (by decide) (by decide)
    simp [h.1]
    decide
  · exact activity_touched_by_get_not_by_handlers.2 newProviderManager wSession wPingMsg
      wCollab31 8

/-- C9: ProviderManager.set_model returns false and leaves the entire router
state untouched when the targeted (or current) provider adapter rejects the
model; on acceptance it returns true, never changes the current provider,
and changes the current model exactly when the targeted provider is the
current one. -/
theorem set_model_validation :
    ∀ (m : ManagerState) (model : String) (provider : Option String),
      (∀ (pname : String) (p : Provider),
        pyOr provider m.current_provider = some pname →
        lookupProvider m.providers pname = some p →
        (adapterSetModel p model).2 = false →
        set_model m model provider = (m, false)) ∧
      (∀ m2 : ManagerState, set_model m model provider = (m2, false) → m2 = m) ∧
      (∀ (m2 : ManagerState) (pname : String),
        set_model m model provider = (m2, true) →
        pyOr provider m.current_provider = some pname →
        m2.current_provider = m.current_provider ∧
        m2.current_model =
          (if some pname = m.current_provider then some model else m.current_model)) := by
  intro m model provider
  refine ⟨?_, ?_, ?_⟩
  · intro pname p hptu hlook hrej
    simp only [set_model, hptu, hlook]
    rcases ha : adapterSetModel p model with ⟨p2, ok⟩
    rw [ha] at hrej
    simp only [] at hrej
    subst hrej
    simp only [ha]
  · intro m2 h
    simp only [set_model] at h
    rcases hptu : pyOr provider m.current_provider with _ | pname
    · simp only [hptu] at h
      exact (congrArg Prod.fst h).symm
    · simp only [hptu] at h
      rcases hlook : lookupProvider m.providers pname with _ | p
      · simp only [hlook] at h
        exact (congrArg Prod.fst h).symm
      · simp only [hlook] at h
        rcases ha : adapterSetModel p model with ⟨p2, ok⟩
        cases ok
        · simp only [ha] at h
          exact (congrArg Prod.fst h).symm
        · simp only [ha] at h
          split at h <;> exact absurd (congrArg Prod.snd h) (by simp)
  · intro m2 pname h hptu
    simp only [set_model, hptu] at h
    rcases hlook : lookupProvider m.providers pname with _ | p
    · simp only [hlook] at h
      exact absurd (congrArg Prod.snd h) (by simp)
    · simp only [hlook] at h
      rcases ha : adapterSetModel p model with ⟨p2, ok⟩
      cases ok
      · simp only [ha] at h
        exact absurd (congrArg Prod.snd h) (by simp)
      · simp only [ha] at h
        split at h
        · rename_i hcur
          have hm2 := (congrArg Prod.fst h).symm
          subst hm2
          simp [if_pos hcur]
        · rename_i hcur
          have hm2 := (congrArg Prod.fst h).symm
          subst hm2
          simp [if_neg hcur]

/-- C9 witness: against the concrete Claude registry, the unavailable Opus
model id is rejected without state change, and the available Haiku model id
is accepted and becomes the router current model. -/
theorem set_model_validation_witness :
    set_model wChatManager "claude-3-opus-20240229" (some "claude") = (wChatManager, false) ∧
    ((set_model wChatManager "claude-3-haiku-20240307" (some "claude")).1.current_provider =
        wChatManager.current_provider ∧
      (set_model wChatManager "claude-3-haiku-20240307" (some "claude")).1.current_model =
        some "claude-3-haiku-20240307") := by
  constructor
  · exact (set_model_validation wChatManager "claude-3-opus-20240229" (some "claude")).1
      "claude" wProviderC (by decide) (by decide) (by decide)
  · have h := (set_model_validation wChatManager "claude-3-haiku-20240307" (some "claude")).2.2
      (set_model wChatManager "claude-3-haiku-20240307" (some "claude")).1 "claude"
      (by decide) (by decide)
    refine ⟨h.1, ?_⟩
    rw [h.2]
    decide

theorem get_session_some_activity (st : SessionStore) (sid : String) (now : Nat)
    (s0 : Session) (st2 : SessionStore) :
    get_session st sid now = (some s0, st2) → s0.last_activity = now := by
  intro h
  simp only [get_session] at h
  cases hl : lookupSession st.sessions sid with
  | none =>
    simp only [hl] at h
    exact absurd (congrArg Prod.fst h) (by simp)
  | some s1 =>
    simp only [hl] at h
    have := congrArg Prod.fst h
    simp at this
    rw [← this]
    rfl

theorem handle_text_input_timestamps (m : ManagerState) (session : Session)
    (msg : InMessage) (c : CollabOutcomes) (now : Nat) :
    ∀ e ∈ (handle_text_input m session msg c now).envelopes,
      envTimestamp e = session.last_activity := by
  intro e he
  simp only [handle_text_input] at he
  split at he
  · simp at he
    subst he
    rfl
  · simp at he
    rcases he with he | ⟨h1, h2, he⟩ <;> (subst he; rfl)

theorem handle_audio_data_timestamps (m : ManagerState) (session : Session)
    (msg : InMessage) (c : CollabOutcomes) (now : Nat) :
    ∀ e ∈ (handle_audio_data m session msg c now).envelopes,
      envTimestamp e = session.last_activity := by
  intro e he
  simp only [handle_audio_data] at he
  split at he
  · simp at he
    subst he
    rfl
  · split at he
    · simp at he
      subst he
      rfl
    · split at he
      · split at he
        · simp at he
          rcases he with he | he <;> (subst he; rfl)
        · simp at he
          rcases he with he | he | ⟨h1, h2, he⟩ <;> (subst he; rfl)
      · simp at he
        subst he
        rfl

theorem route_message_timestamps (m : ManagerState) (session : Session)
    (msg : InMessage) (c : CollabOutcomes) (now : Nat) :
    ∀ e ∈ (route_message m session msg c now).envelopes,
      isRelayedStatus e = false → envTimestamp e = session.last_activity := by
  intro e he hrel
  simp only [route_message] at he
  cases hm : msg.mtype with
  | none =>
    rw [hm] at he
    simp at he
    subst he
    rfl
  | some t =>
    rw [hm] at he
    repeat' split at he
    all_goals first
      | (simp [handle_ping] at he; subst he; rfl)
      | (simp [handle_change_provider] at he; subst he; rfl)
      | (simp [handle_change_model] at he; subst he; rfl)
      | exact handle_audio_data_timestamps m session msg c now e he
      | exact handle_text_input_timestamps m session msg c now e he
      | (simp only [handle_system_status_query] at he
         split at he
         · simp at he
           subst he
           rfl
         · simp at he
           subst he
           exact absurd hrel (by simp [isRelayedStatus]))
      | (simp only [handle_self_awareness_query] at he
         split at he <;> (simp at he; subst he; rfl))
      | (simp [handle_error_analysis_request] at he; subst he; rfl)

/-- C8 counterexample: a session created at time 0, connected at time 5: the
connection_established envelope carries the creation time 0 while the
session current last activity is 5, so the envelope does not carry the
last-activity timestamp. -/
theorem connection_established_timestamp_counterexample :
    (handle_connection_start wStore "s1" 5).1 =
      .established ⟨"s1", 0, 5, true, [], none, none⟩ (.connectionEstablished "s1" 0) ∧
    envTimestamp (.connectionEstablished "s1" 0) = 0 ∧
    (⟨"s1", 0, 5, true, [], none, none⟩ : Session).last_activity = 5 ∧ (0 : Nat) ≠ 5 := by
  decide

/-- C8 amended: every envelope emitted while routing a message carries the
session current last-activity timestamp, except that a success-path
system_status_response relays the monitoring payload timestamp verbatim; and
the connection_established envelope carries the session creation time (the
session having just been touched by the connect-time lookup). -/
theorem envelope_timestamp_discipline :
    (∀ (m : ManagerState) (session : Session) (msg : InMessage) (c : CollabOutcomes)
      (now : Nat),
      ∀ e ∈ (route_message m session msg c now).envelopes,
        isRelayedStatus e = false → envTimestamp e = session.last_activity) ∧
    (∀ (st : SessionStore) (sid : String) (now : Nat) (s : Session) (env : Envelope)
      (st2 : SessionStore),
      handle_connection_start st sid now = (.established s env, st2) →
      env = .connectionEstablished sid s.created_at ∧ s.last_activity = now) := by
  constructor
  · exact route_message_timestamps
  · intro st sid now s env st2 h
    rcases hg : get_session st sid now with ⟨os, st3⟩
    cases os with
    | none =>
      simp only [handle_connection_start, hg] at h
      exact absurd (congrArg Prod.fst h) (by simp)
    | some s0 =>
      simp only [handle_connection_start, hg] at h
      have hfst := congrArg Prod.fst h
      simp only [] at hfst
      injection hfst with h1 h2
      have hact : s0.last_activity = now := get_session_some_activity st sid now s0 st3 hg
      constructor
      · rw [← h2, ← h1]
      · rw [← h1]
        exact hact

/-- C8 amended witness: the discipline applied to a concrete ping exchange
and to the concrete connection of wStore. -/
theorem envelope_timestamp_discipline_witness :
    envTimestamp (.pong 7) = wSession.last_activity ∧
    (Envelope.connectionEstablished "s1" 0 =
        .connectionEstablished "s1" (⟨"s1", 0, 5, true, [], none, none⟩ : Session).created_at ∧
      (⟨"s1", 0, 5, true, [], none, none⟩ : Session).last_activity = 5) := by
  constructor
  · exact envelope_timestamp_discipline.1 newProviderManager wSession wPingMsg wCollab31 8
      (.pong 7) (by decide) (by decide)
  · exact envelope_timestamp_discipline.2 wStore "s1" 5 ⟨"s1", 0, 5, true, [], none, none⟩
      (.connectionEstablished "s1" 0) ⟨[("s1", ⟨"s1", 0, 5, true, [], none, none⟩)]⟩ (by decide)

/-- C6: for an audio_data message with payload present and conversion
succeeding, an empty stripped transcription or a confidence at or below 30
emits exactly the transcription envelope with no chat call; nonempty text
with no reported error and confidence strictly above 30 emits the
transcription envelope first, calls the router, and tags a successful
response as voice sourced. -/
theorem audio_confidence_gate :
    ∀ (m : ManagerState) (session : Session) (msg : InMessage) (c : CollabOutcomes) (now : Nat),
      msg.dataPresent = true → c.conversionOk = true →
      (((pyStrip c.transcription.text).isEmpty = true ∨ c.transcription.confidence ≤ 30) →
        (handle_audio_data m session msg c now).envelopes =
          [.transcription (pyStrip c.transcription.text) c.transcription.confidence
             c.transcription.error session.last_activity] ∧
        (handle_audio_data m session msg c now).chatCalled = false) ∧
      ((pyStrip c.transcription.text).isEmpty = false →
        pyTruthy c.transcription.error = false →
        30 < c.transcription.confidence →
        (handle_audio_data m session msg c now).chatCalled = true ∧
        (handle_audio_data m session msg c now).envelopes.head? =
          some (.transcription (pyStrip c.transcription.text) c.transcription.confidence
             c.transcription.error session.last_activity) ∧
        (∀ r, (chat m session.current_provider session.current_model).result = .ok r →
          Envelope.response r.text r.provider r.model r.fallback_used (some "voice_input")
              session.last_activity ∈ (handle_audio_data m session msg c now).envelopes)) := by
  intro m session msg c now hdp hconv
  constructor
  · intro hstop
    have hcond : ¬((pyStrip c.transcription.text).isEmpty = false ∧
        pyTruthy c.transcription.error = false ∧ 30 < c.transcription.confidence) := by
      rcases hstop with h | h
      · rintro ⟨h1, -, -⟩
        rw [h] at h1
        exact absurd h1 (by decide)
      · rintro ⟨-, -, h3⟩
        exact absurd h3 (not_lt.mpr h)
    simp [handle_audio_data, hdp, hconv, hcond]
  · intro h1 h2 h3
    refine ⟨?_, ?_, ?_⟩
    · simp only [handle_audio_data, hdp, hconv]
      simp only [Bool.true_eq_false, if_false, h1, h2, h3]
      rw [if_pos ⟨trivial, trivial, trivial⟩]
      split <;> rfl
    · simp only [handle_audio_data, hdp, hconv]
      simp only [Bool.true_eq_false, if_false, h1, h2, h3]
      rw [if_pos ⟨trivial, trivial, trivial⟩]
      split <;> rfl
    · intro r hr
      simp only [handle_audio_data, hdp, hconv]
      simp only [Bool.true_eq_false, if_false, h1, h2, h3]
      rw [if_pos ⟨trivial, trivial, trivial⟩]
      split
      · rename_i heq
        rw [heq] at hr
        exact absurd hr (by simp)
      · rename_i r0 heq
        rw [heq] at hr
        injection hr with hrr
        subst hrr
        simp [add_conversation_turn]

/-- C6 witness: confidence 25 yields no chat call, confidence 31 with the
same nonempty transcription proceeds to the router. -/
theorem audio_confidence_gate_witness :
    (handle_audio_data wChatManager wSession wAudioMsg wCollab25 8).chatCalled = false ∧
    (handle_audio_data wChatManager wSession wAudioMsg wCollab31 8).chatCalled = true := by
  have h25 := (audio_confidence_gate wChatManager wSession wAudioMsg wCollab25 8
    (by decide) (by decide)).1 (Or.inr (by decide))
  have h31 := (audio_confidence_gate wChatManager wSession wAudioMsg wCollab31 8
    (by decide) (by decide)).2 (by decide) (by decide) (by decide)
  exact ⟨h25.2, h31.1⟩

/-- C7: a message whose type tag is not a recognized kind produces exactly
one error envelope naming the tag, dispatches no handler, makes no chat
call, leaves the session unchanged, and the receive loop goes on to process
the subsequent messages. -/
theorem unknown_type_error_and_loop_continues :
    ∀ (m : ManagerState) (session : Session) (msg : InMessage) (c : CollabOutcomes)
      (now : Nat) (t : String) (rest : List (InMessage × CollabOutcomes × Nat)),
      msg.mtype = some t → t ∉ knownMessageTypes →
      (route_message m session msg c now).envelopes =
        [.errorMsg ("Unknown message type: " ++ t) session.last_activity] ∧
      (route_message m session msg c now).handler = none ∧
      (route_message m session msg c now).chatCalled = false ∧
      (route_message m session msg c now).session = session ∧
      processMessages m session ((msg, c, now) :: rest) =
        .errorMsg ("Unknown message type: " ++ t) session.last_activity ::
          processMessages m session rest := by
  intro m session msg c now t rest hmt hunk
  simp only [knownMessageTypes, List.mem_cons, List.not_mem_nil, or_false] at hunk
  push_neg at hunk
  obtain ⟨h1, h2, h3, h4, h5, h6, h7, h8⟩ := hunk
  have hroute : route_message m session msg c now =
      ⟨session, [.errorMsg ("Unknown message type: " ++ t) session.last_activity],
       false, none⟩ := by
    simp only [route_message, hmt]
    rw [if_neg h1, if_neg h2, if_neg h3, if_neg h4, if_neg h5, if_neg h6, if_neg h7, if_neg h8]
  refine ⟨by rw [hroute], by rw [hroute], by rw [hroute], by rw [hroute], ?_⟩
  simp [processMessages, hroute]

/-- C7 witness: a concrete bogus message kind yields the single error
envelope and no handler, and processing then carries on with an empty tail. -/
theorem unknown_type_error_witness :
    (route_message wChatManager wSession wBogusMsg wCollab31 8).envelopes =
      [.errorMsg "Unknown message type: bogus_kind" 7] ∧
    (route_message wChatManager wSession wBogusMsg wCollab31 8).handler = none := by
  have h := unknown_type_error_and_loop_continues wChatManager wSession wBogusMsg wCollab31 8
    "bogus_kind" [] (by decide) (by decide)
  exact ⟨h.1.trans (by decide), h.2.1⟩

/-! ### Helper lemmas on the router -/

theorem chatPhase1_some (ps : List (String × Provider)) (ptu mtu : Option String)
    (r : ChatResult) (tr : List String) :
    chatPhase1 ps ptu mtu = (some r, tr) →
    r.fallback_used = false ∧ ptu = some r.provider := by
  intro h
  cases ptu with
  | none =>
    simp only [chatPhase1] at h
    exact absurd (congrArg Prod.fst h) (by simp)
  | some pname =>
    simp only [chatPhase1] at h
    split at h
    · cases hl : lookupProvider ps pname with
      | none =>
        simp only [hl] at h
        exact absurd (congrArg Prod.fst h) (by simp)
      | some p =>
        simp only [hl] at h
        split at h
        · cases hb : p.chatBehavior with
          | raises =>
            simp only [hb] at h
            exact absurd (congrArg Prod.fst h) (by simp)
          | returns t =>
            simp only [hb] at h
            split at h
            · exact absurd (congrArg Prod.fst h) (by simp)
            · have hfst := congrArg Prod.fst h
              simp at hfst
              rw [← hfst]
              exact ⟨rfl, rfl⟩
        · exact absurd (congrArg Prod.fst h) (by simp)
    · exact absurd (congrArg Prod.fst h) (by simp)

theorem chatPhase1_trace (ps : List (String × Provider)) (ptu mtu : Option String) :
    (chatPhase1 ps ptu mtu).2 = requestedAttempt ps ptu := by
  cases ptu with
  | none => rfl
  | some pname =>
    simp only [chatPhase1, requestedAttempt]
    repeat' split
    all_goals rfl

theorem chatPhase1_none_failed (ps : List (String × Provider)) (ptu mtu : Option String)
    (tr : List String) :
    chatPhase1 ps ptu mtu = (none, tr) →
    ∀ f ∈ tr, ∃ p, lookupProvider ps f = some p ∧ chatSucceeds p.chatBehavior = false := by
  intro h f hf
  cases ptu with
  | none =>
    simp only [chatPhase1] at h
    have hsnd := congrArg Prod.snd h
    simp at hsnd
    subst hsnd
    simp at hf
  | some pname =>
    simp only [chatPhase1] at h
    split at h
    · cases hl : lookupProvider ps pname with
      | none =>
        simp only [hl] at h
        have hsnd := congrArg Prod.snd h
        simp at hsnd
        subst hsnd
        simp at hf
      | some p =>
        simp only [hl] at h
        split at h
        · cases hb : p.chatBehavior with
          | raises =>
            simp only [hb] at h
            have hsnd := congrArg Prod.snd h
            simp at hsnd
            subst hsnd
            simp at hf
            subst hf
            exact ⟨p, hl, by simp [chatSucceeds, hb]⟩
          | returns t =>
            simp only [hb] at h
            split at h
            · rename_i hte
              have hsnd := congrArg Prod.snd h
              simp at hsnd
              subst hsnd
              simp at hf
              subst hf
              exact ⟨p, hl, by simp [chatSucceeds, hb, hte]⟩
            · exact absurd (congrArg Prod.fst h) (by simp)
        · have hsnd := congrArg Prod.snd h
          simp at hsnd
          subst hsnd
          simp at hf
    · have hsnd := congrArg Prod.snd h
      simp at hsnd
      subst hsnd
      simp at hf

theorem chatFallbackLoop_some (ps : List (String × Provider)) (ptu : Option String) :
    ∀ (chain : List String) (r : ChatResult) (tr : List String),
      chatFallbackLoop ps ptu chain = (some r, tr) →
      r.fallback_used = true ∧ ptu ≠ some r.provider := by
  intro chain
  induction chain with
  | nil =>
    intro r tr h
    exact absurd (congrArg Prod.fst h) (by simp [chatFallbackLoop])
  | cons f rest ih =>
    intro r tr h
    simp only [chatFallbackLoop] at h
    split at h
    · exact ih r tr h
    · rename_i hskip
      cases hl : lookupProvider ps f with
      | none =>
        simp only [hl] at h
        exact ih r tr h
      | some p =>
        simp only [hl] at h
        split at h
        · cases hb : p.chatBehavior with
          | raises =>
            simp only [hb] at h
            have hfst := congrArg Prod.fst h
            simp at hfst
            rcases hrec : chatFallbackLoop ps ptu rest with ⟨o1, t1⟩
            simp only [hrec] at hfst
            exact ih r t1 (by rw [hrec, hfst])
          | returns s =>
            simp only [hb] at h
            split at h
            · have hfst := congrArg Prod.fst h
              simp at hfst
              rcases hrec : chatFallbackLoop ps ptu rest with ⟨o1, t1⟩
              simp only [hrec] at hfst
              exact ih r t1 (by rw [hrec, hfst])
            · have hfst := congrArg Prod.fst h
              simp at hfst
              rw [← hfst]
              exact ⟨rfl, fun hc => hskip hc⟩
        · exact ih r tr h

theorem chatFallbackLoop_none (ps : List (String × Provider)) (ptu : Option String) :
    ∀ (chain : List String) (tr : List String),
      chatFallbackLoop ps ptu chain = (none, tr) →
      tr = chain.filter (fun f => fallbackEligible ps ptu f) ∧
      ∀ f ∈ tr, ∃ p, lookupProvider ps f = some p ∧ chatSucceeds p.chatBehavior = false := by
  intro chain
  induction chain with
  | nil =>
    intro tr h
    simp only [chatFallbackLoop] at h
    have hsnd := congrArg Prod.snd h
    simp at hsnd
    subst hsnd
    exact ⟨by simp, by simp⟩
  | cons f rest ih =>
    intro tr h
    simp only [chatFallbackLoop] at h
    split at h
    · rename_i hskip
      obtain ⟨htr, hall⟩ := ih tr h
      refine ⟨?_, hall⟩
      rw [htr, List.filter_cons]
      simp [fallbackEligible, hskip]
    · rename_i hskip
      cases hl : lookupProvider ps f with
      | none =>
        simp only [hl] at h
        obtain ⟨htr, hall⟩ := ih tr h
        refine ⟨?_, hall⟩
        rw [htr, List.filter_cons]
        simp [fallbackEligible, hskip, hl]
      | some p =>
        simp only [hl] at h
        split at h
        · rename_i hav
          cases hb : p.chatBehavior with
          | raises =>
            simp only [hb] at h
            rcases hrec : chatFallbackLoop ps ptu rest with ⟨o1, t1⟩
            simp only [hrec] at h
            have hfst := congrArg Prod.fst h
            have hsnd := congrArg Prod.snd h
            simp at hfst hsnd
            subst hfst
            obtain ⟨ht1, hall⟩ := ih t1 hrec
            constructor
            · rw [← hsnd, ht1, List.filter_cons]
              simp [fallbackEligible, hskip, hl, hav]
            · intro g hg
              rw [← hsnd] at hg
              rcases List.mem_cons.mp hg with hg | hg
              · subst hg
                exact ⟨p, hl, by simp [chatSucceeds, hb]⟩
              · exact hall g hg
          | returns s =>
            simp only [hb] at h
            split at h
            · rename_i hse
              rcases hrec : chatFallbackLoop ps ptu rest with ⟨o1, t1⟩
              simp only [hrec] at h
              have hfst := congrArg Prod.fst h
              have hsnd := congrArg Prod.snd h
              simp at hfst hsnd
              subst hfst
              obtain ⟨ht1, hall⟩ := ih t1 hrec
              constructor
              · rw [← hsnd, ht1, List.filter_cons]
                simp [fallbackEligible, hskip, hl, hav]
              · intro g hg
                rw [← hsnd] at hg
                rcases List.mem_cons.mp hg with hg | hg
                · subst hg
                  exact ⟨p, hl, by simp [chatSucceeds, hb, hse]⟩
                · exact hall g hg
            · exact absurd (congrArg Prod.fst h) (by simp)
        · rename_i hav
          obtain ⟨htr, hall⟩ := ih tr h
          refine ⟨?_, hall⟩
          rw [htr, List.filter_cons]
          simp [fallbackEligible, hskip, hl, hav]

theorem chatPhase1_no_providers (ptu mtu : Option String) :
    chatPhase1 [] ptu mtu = (none, []) := by
  cases ptu with
  | none => rfl
  | some pname =>
    simp only [chatPhase1]
    split <;> rfl

theorem chatFallbackLoop_no_providers (ptu : Option String) :
    ∀ chain : List String, chatFallbackLoop [] ptu chain = (none, []) := by
  intro chain
  induction chain with
  | nil => rfl
  | cons f rest ih =>
    simp only [chatFallbackLoop]
    split
    · exact ih
    · simp only [lookupProvider]
      exact ih

theorem requestedAttempt_cases (ps : List (String × Provider)) (ptu : Option String) :
    requestedAttempt ps ptu = [] ∨
    ∃ pname, ptu = some pname ∧ requestedAttempt ps ptu = [pname] := by
  cases ptu with
  | none => exact Or.inl rfl
  | some pname =>
    simp only [requestedAttempt]
    repeat' split
    all_goals first
      | exact Or.inl rfl
      | exact Or.inr ⟨pname, rfl, rfl⟩

/-- C1: with a fallback chain [A, B, C] of registered available providers
where the requested provider A fails, B fails, and C succeeds, chat returns
the C response text with fallback_used true and invokes A, B and C exactly
once each, in chain priority order; and in general any returned result has
fallback_used true exactly when the provider used differs from the requested
or default provider. -/
theorem chat_fallback_order_and_flag :
    (∀ (A B C : String) (pa pb pc : Provider) (m : ManagerState) (mo : Option String)
      (s : String),
      m.providers = [(A, pa), (B, pb), (C, pc)] →
      m.fallback_chain = [A, B, C] →
      A ≠ "" → A ≠ B → A ≠ C → B ≠ C →
      is_available pa = true → is_available pb = true → is_available pc = true →
      chatSucceeds pa.chatBehavior = false →
      chatSucceeds pb.chatBehavior = false →
      pc.chatBehavior = .returns s → s ≠ "" →
      (chat m (some A) mo).result = .ok ⟨s, C, pc.current_model, true⟩ ∧
      (chat m (some A) mo).invoked = [A, B, C]) ∧
    (∀ (m : ManagerState) (provider model : Option String) (r : ChatResult),
      (chat m provider model).result = .ok r →
      (r.fallback_used = true ↔ some r.provider ≠ pyOr provider m.current_provider)) := by
  constructor
  · intro A B C pa pb pc m mo s hps hchain hA hAB hAC hBC hav1 hav2 hav3 hf1 hf2 hc hs
    have hAe : A.isEmpty = false := by
      cases he : A.isEmpty
      · rfl
      · exact absurd ((String.isEmpty_iff A).mp he) hA
    have hse : s.isEmpty = false := by
      cases he : s.isEmpty
      · rfl
      · exact absurd ((String.isEmpty_iff s).mp he) hs
    have hchat : chat m (some A) mo = ⟨.ok ⟨s, C, pc.current_model, true⟩, [A, B, C], m⟩ := by
      rcases hb1 : pa.chatBehavior with _ | t1
      · rcases hb2 : pb.chatBehavior with _ | t2
        · simp [chat, chatPhase1, chatFallbackLoop, lookupProvider, pyOr, pyTruthy,
                hps, hchain, hAe, hAB, hAC, hBC, hav1, hav2, hav3, hb1, hb2, hc, hse]
        · have ht2 : t2.isEmpty = true := by simpa [chatSucceeds, hb2] using hf2
          simp [chat, chatPhase1, chatFallbackLoop, lookupProvider, pyOr, pyTruthy,
                hps, hchain, hAe, hAB, hAC, hBC, hav1, hav2, hav3, hb1, hb2, hc, hse, ht2]
      · have ht1 : t1.isEmpty = true := by simpa [chatSucceeds, hb1] using hf1
        rcases hb2 : pb.chatBehavior with _ | t2
        · simp [chat, chatPhase1, chatFallbackLoop, lookupProvider, pyOr, pyTruthy,
                hps, hchain, hAe, hAB, hAC, hBC, hav1, hav2, hav3, hb1, hb2, hc, hse, ht1]
        · have ht2 : t2.isEmpty = true := by simpa [chatSucceeds, hb2] using hf2
          simp [chat, chatPhase1, chatFallbackLoop, lookupProvider, pyOr, pyTruthy,
                hps, hchain, hAe, hAB, hAC, hBC, hav1, hav2, hav3, hb1, hb2, hc, hse, ht1, ht2]
    exact ⟨by rw [hchat], by rw [hchat]⟩
  · intro m provider model r h
    simp only [chat] at h
    rcases hp : chatPhase1 m.providers (pyOr provider m.current_provider)
        (pyOr model m.current_model) with ⟨o1, t1⟩
    simp only [hp] at h
    cases o1 with
    | some r1 =>
      simp at h
      subst h
      obtain ⟨hfb, hptu⟩ := chatPhase1_some m.providers
        (pyOr provider m.current_provider) (pyOr model m.current_model) r1 t1 hp
      constructor
      · intro ht
        exact absurd (hfb.symm.trans ht) (by decide)
      · intro hne
        exact absurd hptu.symm hne
    | none =>
      rcases hl : chatFallbackLoop m.providers (pyOr provider m.current_provider)
          m.fallback_chain with ⟨o2, t2⟩
      simp only [hl] at h
      cases o2 with
      | some r2 =>
        simp at h
        subst h
        obtain ⟨htrue, hne⟩ := chatFallbackLoop_some m.providers
          (pyOr provider m.current_provider) m.fallback_chain r2 t2 hl
        exact ⟨fun _ => Ne.symm hne, fun _ => htrue⟩
      | none => exact absurd h (by simp)

/-- C1 witness: the concrete three-entry chain openai, claude, lmx where the
first raises, the second returns an empty string, and the third answers; and
the general flag equivalence applied to that call. -/
theorem chat_fallback_order_and_flag_witness :
    ((chat wManager (some "openai") none).result =
        .ok ⟨"hello there", "lmx", some "claude-3-5-sonnet-20241022", true⟩ ∧
      (chat wManager (some "openai") none).invoked = ["openai", "claude", "lmx"]) ∧
    ((⟨"hello there", "lmx", some "claude-3-5-sonnet-20241022", true⟩ : ChatResult).fallback_used
        = true ↔
      some "lmx" ≠ pyOr (some "openai") wManager.current_provider) := by
  constructor
  · exact chat_fallback_order_and_flag.1 "openai" "claude" "lmx" wProviderA wProviderB
      wProviderC wManager none "hello there" (by decide) (by decide) (by decide) (by decide)
      (by decide) (by decide) (by decide) (by decide) (by decide) (by decide) (by decide)
      (by decide) (by decide)
  · exact chat_fallback_order_and_flag.2 wManager (some "openai") none
      ⟨"hello there", "lmx", some "claude-3-5-sonnet-20241022", true⟩ (by decide)

/-- C3 counterexample: with chain [openai, claude, ollama], openai requested,
available and failing, claude registered but unavailable, chat raises
AllProvidersFailed although the chain is nonempty, providers are registered,
and the registered chain entry claude was never attempted (its chat method
is not invoked). -/
theorem all_providers_failed_counterexample :
    (chat cxManager (some "openai") none).result = .allProvidersFailed ∧
    (chat cxManager (some "openai") none).invoked = ["openai"] ∧
    cxManager.fallback_chain = ["openai", "claude", "ollama"] ∧
    lookupProvider cxManager.providers "claude" = some wProviderDown ∧
    "claude" ∉ (chat cxManager (some "openai") none).invoked := by
  decide

/-- C3 amended: chat raises AllProvidersFailed exactly after one failed
attempt on the requested provider when it is registered and available, and
one failed attempt on every chain entry that is distinct from the requested
one, registered, and available; entries that are unregistered or unavailable
are skipped without a chat invocation. For a chain without duplicates no
provider is attempted twice, and with an empty registry it raises without
invoking any adapter. -/
theorem all_providers_failed_exhaustion :
    ∀ (m : ManagerState) (provider model : Option String),
      ((chat m provider model).result = .allProvidersFailed →
        (chat m provider model).invoked =
          requestedAttempt m.providers (pyOr provider m.current_provider) ++
            m.fallback_chain.filter
              (fun f => fallbackEligible m.providers (pyOr provider m.current_provider) f) ∧
        (∀ f ∈ (chat m provider model).invoked,
          ∃ p, lookupProvider m.providers f = some p ∧ chatSucceeds p.chatBehavior = false) ∧
        (m.fallback_chain.Nodup → (chat m provider model).invoked.Nodup)) ∧
      (m.providers = [] →
        (chat m provider model).result = .allProvidersFailed ∧
        (chat m provider model).invoked = []) := by
  intro m provider model
  constructor
  · intro hfail
    rcases hp : chatPhase1 m.providers (pyOr provider m.current_provider)
        (pyOr model m.current_model) with ⟨o1, t1⟩
    cases o1 with
    | some r1 =>
      exact absurd hfail (by simp [chat, hp])
    | none =>
      rcases hl : chatFallbackLoop m.providers (pyOr provider m.current_provider)
          m.fallback_chain with ⟨o2, t2⟩
      cases o2 with
      | some r2 =>
        exact absurd hfail (by simp [chat, hp, hl])
      | none =>
        have hinv : (chat m provider model).invoked = t1 ++ t2 := by
          simp [chat, hp, hl]
        have ht1 : t1 = requestedAttempt m.providers (pyOr provider m.current_provider) := by
          have := chatPhase1_trace m.providers (pyOr provider m.current_provider)
            (pyOr model m.current_model)
          rw [hp] at this
          exact this
        obtain ⟨ht2, hall2⟩ := chatFallbackLoop_none m.providers
          (pyOr provider m.current_provider) m.fallback_chain t2 hl
        have hall1 := chatPhase1_none_failed m.providers
          (pyOr provider m.current_provider) (pyOr model m.current_model) t1 hp
        refine ⟨by rw [hinv, ht1, ht2], ?_, ?_⟩
        · intro f hf
          rw [hinv] at hf
          rcases List.mem_append.mp hf with hf | hf
          · exact hall1 f hf
          · exact hall2 f hf
        · intro hnd
          rw [hinv, ht1, ht2]
          have hndf : (m.fallback_chain.filter
              (fun f => fallbackEligible m.providers (pyOr provider m.current_provider) f)).Nodup :=
            hnd.filter _
          rcases requestedAttempt_cases m.providers (pyOr provider m.current_provider)
            with hra | ⟨pname, hptu, hra⟩
          · rw [hra]
            simpa using hndf
          · rw [hra]
            refine List.Nodup.cons ?_ hndf
            intro hmem
            have := List.of_mem_filter hmem
            rw [hptu] at this
            simp [fallbackEligible] at this


  · intro hempty
    constructor
    · simp [chat, hempty, chatPhase1_no_providers, chatFallbackLoop_no_providers]
    · simp [chat, hempty, chatPhase1_no_providers, chatFallbackLoop_no_providers]

/-- C3 amended witness: the exhaustion characterization applied to the
concrete failing manager, and the empty registry raising with no adapter
invoked. -/
theorem all_providers_failed_exhaustion_witness :
    (chat cxManager (some "openai") none).invoked =
      requestedAttempt cxManager.providers (pyOr (some "openai") cxManager.current_provider) ++
        cxManager.fallback_chain.filter
          (fun f =>
            fallbackEligible cxManager.providers
              (pyOr (some "openai") cxManager.current_provider) f) ∧
    ((chat newProviderManager none none).result = .allProvidersFailed ∧
      (chat newProviderManager none none).invoked = []) := by
  constructor
  · exact ((all_providers_failed_exhaustion cxManager (some "openai") none).1 (by decide)).1
  · exact (all_providers_failed_exhaustion newProviderManager none none).2 (by decide)

end VoiceAssistant
